import Mathlib

/-!
Shallow embedding of the "baton relay" web-transport application protocol
(`picohttp/wt_baton.c`): the session context, the relay dispatcher, the
turn check, the resumable frame decoder/encoder, the datagram side channel
and context initialization, together with theorems settling the spec claims.

Machine integers are modelled as `Nat` with explicit `% 256` where the C
code stores into a `uint8_t`; the `UINT64_MAX` sentinel is the explicit
constant `2^64 - 1`.  Calls into the transport / h3zero collaborators are
modelled as emitted actions (`wt_action`) or as boolean fields describing
the registry state they consult.
-/

namespace WtBaton

/-- `UINT64_MAX`, used by the C code as the "unset" sentinel for stream ids
and padding counters. -/
def UINT64_MAX : Nat := 2 ^ 64 - 1

/-- Session error codes (values from `wt_baton.h`, which only declares the
constants; the claims rely only on `0` being the success code and on the
codes being distinct). -/
def WT_BATON_SESSION_ERR_DA_YAMN : Nat := 1

/-- "Received a malformed Baton message" error code. -/
def WT_BATON_SESSION_ERR_BRUH : Nat := 2

/-- "All baton streams have been reset" error code. -/
def WT_BATON_SESSION_ERR_GAME_OVER : Nat := 3

/-- "Got tired of waiting" error code. -/
def WT_BATON_SESSION_ERR_BORED : Nat := 4

/-- Stream type tag written at the head of a newly opened unidirectional
relay stream (value from `h3zero.h`; the claims only use that it is a tag
followed by the control stream id). -/
def h3zero_stream_type_webtransport : Nat := 0x54

/-- Frame type tag written at the head of a newly opened bidirectional
relay stream (value from `h3zero.h`). -/
def h3zero_frame_webtransport_stream : Nat := 0x41

/-- The baton session states (`wt_baton_state_enum`); `start` is
`wt_baton_state_none`, the all-zeroes value produced by `memset 0`. -/
inductive wt_baton_state where
  | start
  | ready
  | sent
  | done
  | error
  | closed
deriving DecidableEq, Repr

/-- The baton session context (`wt_baton_ctx_t`).  Numeric fields are kept
as `Nat`; `receive_buffer` holds the `nb_receive_buffer_bytes` bytes
buffered so far for the padding-length varint (the C array only ever has
its first `nb_receive_buffer_bytes` cells read, so the list is exactly the
meaningful content).  `control_found` / `control_fin_sent` model the state
of the control stream record in the external h3zero registry, as consulted
by `wt_baton_find_stream` and mutated by `picowt_send_close_session_message`. -/
structure wt_baton_ctx where
  h3_ctx : Bool
  is_client : Bool
  connection_ready : Bool
  connection_closed : Bool
  baton_state : wt_baton_state
  baton : Nat
  baton_received : Nat
  first_baton : Nat
  nb_turns : Nat
  nb_turns_required : Nat
  control_stream_id : Nat
  receiving_stream_id : Nat
  sending_stream_id : Nat
  is_receiving : Bool
  is_sending : Bool
  padding_expected : Nat
  padding_received : Nat
  padding_required : Nat
  padding_sent : Nat
  receive_buffer : List Nat
  nb_baton_bytes_received : Nat
  nb_baton_bytes_sent : Nat
  is_datagram_ready : Bool
  baton_datagram_send_next : Nat
  baton_datagram_received : Nat
  nb_datagrams_received : Nat
  nb_datagram_bytes_received : Nat
  nb_datagrams_sent : Nat
  nb_datagram_bytes_sent : Nat
  control_found : Bool
  control_fin_sent : Bool
deriving DecidableEq, Repr

/-- The all-zeroes context produced by `memset(baton_ctx, 0, sizeof(...))`. -/
def zeroCtx : wt_baton_ctx where
  h3_ctx := false
  is_client := false
  connection_ready := false
  connection_closed := false
  baton_state := wt_baton_state.start
  baton := 0
  baton_received := 0
  first_baton := 0
  nb_turns := 0
  nb_turns_required := 0
  control_stream_id := 0
  receiving_stream_id := 0
  sending_stream_id := 0
  is_receiving := false
  is_sending := false
  padding_expected := 0
  padding_received := 0
  padding_required := 0
  padding_sent := 0
  receive_buffer := []
  nb_baton_bytes_received := 0
  nb_baton_bytes_sent := 0
  is_datagram_ready := false
  baton_datagram_send_next := 0
  baton_datagram_received := 0
  nb_datagrams_received := 0
  nb_datagram_bytes_received := 0
  nb_datagrams_sent := 0
  nb_datagram_bytes_sent := 0
  control_found := false
  control_fin_sent := false

/-- The per-stream record (`picohttp_server_stream_ctx_t`), restricted to
the fields `wt_baton.c` reads. -/
structure stream_ctx where
  stream_id : Nat
  control_stream_id : Nat
  is_fin_sent : Bool
  is_fin_received : Bool
deriving DecidableEq, Repr

/-- Calls the baton code issues into the transport / h3zero collaborators,
in issue order. -/
inductive wt_action where
  | add_to_stream (stream_id : Nat) (data : List Nat) (set_fin : Bool)
  | mark_active_stream (stream_id : Nat)
  | send_close_session_message (err : Nat) (msg : Option String)
  | set_datagram_ready (stream_id : Nat)
  | close_connection
  | unregister_control_stream (stream_id : Nat)
deriving DecidableEq, Repr

/-- `true` exactly on the close-session message action. -/
def wt_action.is_close_message : wt_action → Bool
  | wt_action.send_close_session_message _ _ => true
  | _ => false

/-- `picoquic` stream id convention: bit 1 clear means bidirectional
(`IS_BIDIR_STREAM_ID`). -/
def IS_BIDIR_STREAM_ID (stream_id : Nat) : Bool := stream_id % 4 < 2

/-- `picoquic` stream id convention: bit 0 is `0` for client-initiated
streams, so a stream is locally initiated when bit 0 matches the local
role (`IS_LOCAL_STREAM_ID`). -/
def IS_LOCAL_STREAM_ID (stream_id : Nat) (client_mode : Bool) : Bool :=
  stream_id % 2 == (if client_mode then 0 else 1)

/-- QUIC variable-length integer encoding (`picoquic_frames_varint_encode`).
Values at or above `2^62` are not encodable; the C encoder reports that by
returning NULL, modelled as the empty byte list. -/
def picoquic_frames_varint_encode (v : Nat) : List Nat :=
  if v < 0x40 then [v]
  else if v < 0x4000 then [0x40 + v / 0x100, v % 0x100]
  else if v < 0x40000000 then
    [0x80 + v / 0x1000000, v / 0x10000 % 0x100, v / 0x100 % 0x100, v % 0x100]
  else if v < 0x4000000000000000 then
    [0xC0 + v / 0x100000000000000, v / 0x1000000000000 % 0x100,
     v / 0x10000000000 % 0x100, v / 0x100000000 % 0x100,
     v / 0x1000000 % 0x100, v / 0x10000 % 0x100, v / 0x100 % 0x100, v % 0x100]
  else []

/-- Number of bytes occupied by a varint whose first byte is `b`
(`VARINT_LEN_T`): `1 << (b >> 6)`. -/
def varint_len (b : Nat) : Nat := 2 ^ (b / 64)

/-- QUIC varint decoding (`picoquic_frames_varint_decode`): returns the
value and the remaining bytes, or `none` when the input is too short. -/
def picoquic_frames_varint_decode : List Nat → Option (Nat × List Nat)
  | [] => Option.none
  | b :: rest =>
    let extra := varint_len b - 1
    if rest.length < extra then Option.none
    else Option.some ((rest.take extra).foldl (fun a x => a * 0x100 + x) (b % 64), rest.drop extra)

/-- `picoquic_frames_fixed_skip`: drop `n` bytes, failing when fewer remain. -/
def picoquic_frames_fixed_skip (bytes : List Nat) (n : Nat) : Option (List Nat) :=
  if bytes.length < n then Option.none else Option.some (bytes.drop n)

/-- `picoquic_frames_uint8_decode`: read one byte. -/
def picoquic_frames_uint8_decode : List Nat → Option (Nat × List Nat)
  | [] => Option.none
  | b :: rest => Option.some (b, rest)

/-- `wt_baton_close_session`: when the control stream is registered and its
FIN has not been sent, resolve the default reason text for the error code,
send the close-session message and mark the session closed.  Sending the
close message finishes the control stream
(`picowt_send_close_session_message` queues the capsule with FIN), which
is what makes a second close a no-op. -/
def wt_baton_close_session (ctx : wt_baton_ctx) (err : Nat) (err_msg : Option String) :
    wt_baton_ctx × List wt_action :=
  if ctx.control_found && !ctx.control_fin_sent then
    let msg : Option String :=
      match err_msg with
      | Option.some m => Option.some m
      | Option.none =>
        if err = 0 then Option.some "Have a nice day"
        else if err = WT_BATON_SESSION_ERR_DA_YAMN then
          Option.some "There is insufficient stream credit to continue the protocol"
        else if err = WT_BATON_SESSION_ERR_BRUH then
          Option.some "Received a malformed Baton message"
        else if err = WT_BATON_SESSION_ERR_GAME_OVER then
          Option.some "All baton streams have been reset"
        else if err = WT_BATON_SESSION_ERR_BORED then
          Option.some "Got tired of waiting for the next message"
        else Option.none
    ({ ctx with baton_state := wt_baton_state.closed, control_fin_sent := true },
     [wt_action.send_close_session_message err msg])
  else (ctx, [])

/-- `wt_baton_set_receive_ready`: re-arm the decoder scratch for the next
incoming frame. -/
def wt_baton_set_receive_ready (ctx : wt_baton_ctx) : wt_baton_ctx :=
  { ctx with
    is_receiving := true
    receiving_stream_id := UINT64_MAX
    padding_expected := UINT64_MAX
    padding_received := 0
    receive_buffer := [] }

/-- `wt_baton_relay`: choose the stream carrying the next outbound frame.
A fresh locally created stream receives the id `fresh_id`
(`picoquic_get_next_local_stream_id`); stream creation is modelled as
succeeding.  On a new stream the web-transport header (type tag followed
by the control stream id) is queued before arming the stream. -/
def wt_baton_relay (ctx : wt_baton_ctx) (s : Option stream_ctx) (fresh_id : Nat) :
    wt_baton_ctx × List wt_action :=
  let pick : Nat × List wt_action :=
    match s with
    | Option.none =>
      (fresh_id,
       [wt_action.add_to_stream fresh_id
         (picoquic_frames_varint_encode h3zero_stream_type_webtransport ++
          picoquic_frames_varint_encode ctx.control_stream_id) false])
    | Option.some st =>
      if IS_BIDIR_STREAM_ID st.stream_id && IS_LOCAL_STREAM_ID st.stream_id ctx.is_client then
        (fresh_id,
         [wt_action.add_to_stream fresh_id
           (picoquic_frames_varint_encode h3zero_stream_type_webtransport ++
            picoquic_frames_varint_encode ctx.control_stream_id) false])
      else if !IS_BIDIR_STREAM_ID st.stream_id then
        (fresh_id,
         [wt_action.add_to_stream fresh_id
           (picoquic_frames_varint_encode h3zero_frame_webtransport_stream ++
            picoquic_frames_varint_encode ctx.control_stream_id) false])
      else
        (st.stream_id, [])
  ({ ctx with
      nb_turns := ctx.nb_turns + 1
      is_sending := true
      sending_stream_id := pick.1
      padding_required := UINT64_MAX
      padding_sent := 0 },
   pick.2 ++ [wt_action.mark_active_stream pick.1])

/-- `wt_baton_check`: the turn check run once a baton frame is fully
decoded on stream `s`.  `picoquic_is_client cnx` coincides with the
context's `is_client` flag (set in `wt_baton_connect`, zero on the
server), so the datagram-arming parity test uses that field. -/
def wt_baton_check (ctx : wt_baton_ctx) (s : stream_ctx) (fresh_id : Nat) :
    wt_baton_ctx × List wt_action :=
  if ctx.baton_received = 0 then
    let ctx1 := { ctx with baton_state := wt_baton_state.done }
    let finActs :=
      if IS_BIDIR_STREAM_ID s.stream_id && !IS_LOCAL_STREAM_ID s.stream_id ctx.is_client then
        [wt_action.add_to_stream s.stream_id [] true]
      else []
    let closed := wt_baton_close_session ctx1 0 Option.none
    (closed.1, finActs ++ closed.2)
  else
    let is_wrong_baton :=
      ctx.baton_state = wt_baton_state.sent && ctx.baton_received != ctx.baton + 1
    let ctx1 :=
      if ctx.baton_state = wt_baton_state.ready ∧ ctx.first_baton = 0 then
        { ctx with first_baton := ctx.baton_received }
      else ctx
    if is_wrong_baton then
      wt_baton_close_session { ctx1 with baton_state := wt_baton_state.error }
        WT_BATON_SESSION_ERR_BRUH Option.none
    else
      let armed : wt_baton_ctx × List wt_action :=
        if ctx1.baton_received % 7 = (if ctx1.is_client then 1 else 0) ∧
            ctx1.baton_received ≠ 0 then
          ({ ctx1 with
              is_datagram_ready := true
              baton_datagram_send_next := ctx1.baton_received },
           [wt_action.set_datagram_ready ctx1.control_stream_id])
        else (ctx1, [])
      let ctx2 : wt_baton_ctx := { armed.1 with nb_turns := armed.1.nb_turns + 1 }
      let ctx3 : wt_baton_ctx :=
        if ctx2.nb_turns_required ≤ ctx2.nb_turns then
          { ctx2 with baton_state := wt_baton_state.done, baton := 0 }
        else if 4 ≤ ctx2.nb_turns ∧ ctx2.nb_turns_required = 257 then
          let b := (ctx2.baton + 31) % 256
          { ctx2 with baton := if b = 0 then 1 else b }
        else
          { ctx2 with
              baton_state := wt_baton_state.sent
              baton := (ctx2.baton_received + 1) % 256 }
      let relayed := wt_baton_relay ctx3 (Option.some s) fresh_id
      (relayed.1, armed.2 ++ relayed.2)

/-- The padding-length buffering loop of `wt_baton_stream_data` (the
`while` loop): while the padding length is still unknown, first try to
decode it from the bytes buffered so far (breaking without consuming
input), otherwise buffer one more incoming byte.  Returns the new buffer,
the new `padding_expected` and the unconsumed input. -/
def wt_varint_phase (buf : List Nat) (pe : Nat) : List Nat → List Nat × Nat × List Nat
  | [] => (buf, pe, [])
  | b :: rest =>
    if pe ≠ UINT64_MAX then (buf, pe, b :: rest)
    else if 0 < buf.length ∧ varint_len (buf.headD 0) ≤ buf.length then
      let decoded :=
        match picoquic_frames_varint_decode (buf.take (varint_len (buf.headD 0))) with
        | Option.some vr => vr.1
        | Option.none => pe
      (buf, decoded, b :: rest)
    else wt_varint_phase (buf ++ [b]) pe rest

/-- The payload-consuming part of `wt_baton_stream_data` (lines guarded by
`length > 0` after the stream-id check): account the received bytes,
buffer/decode the padding length, swallow padding, then take the single
baton byte or fault on surplus bytes. -/
def wt_baton_process_payload (ctx : wt_baton_ctx) (bytes : List Nat) :
    wt_baton_ctx × List wt_action :=
  let ctxA := { ctx with nb_baton_bytes_received := ctx.nb_baton_bytes_received + bytes.length }
  let ph := wt_varint_phase ctxA.receive_buffer ctxA.padding_expected bytes
  let ctxB := { ctxA with receive_buffer := ph.1, padding_expected := ph.2.1 }
  let rest := ph.2.2
  let padded : wt_baton_ctx × List Nat :=
    if ctxB.padding_expected ≠ UINT64_MAX ∧ rest ≠ [] ∧
        ctxB.padding_received < ctxB.padding_expected then
      let available := min (ctxB.padding_expected - ctxB.padding_received) rest.length
      ({ ctxB with padding_received := ctxB.padding_received + available }, rest.drop available)
    else (ctxB, rest)
  let ctxC := padded.1
  let rest2 := padded.2
  if ctxC.padding_expected ≠ UINT64_MAX ∧ ctxC.padding_expected = ctxC.padding_received ∧
      rest2 ≠ [] then
    if !ctxC.is_receiving ∨ 1 < rest2.length then
      wt_baton_close_session ctxC WT_BATON_SESSION_ERR_BRUH
        (Option.some "Too much data on stream!")
    else
      ({ ctxC with baton_received := rest2.headD 0, is_receiving := false }, [])
  else (ctxC, [])

/-- Fix the receiving stream on first byte arrival for this turn: when no
receiving stream is registered, adopt the delivering one. -/
def wt_baton_adopt_recv (ctx : wt_baton_ctx) (s : stream_ctx) : wt_baton_ctx :=
  if ctx.receiving_stream_id = UINT64_MAX then
    { ctx with receiving_stream_id := s.stream_id }
  else ctx

/-- `wt_baton_stream_data`: the stream-data entry point.  Dispatches on
control stream / unlinked stream / session state, runs the resumable
decoder on the payload and handles the end-of-stream marker.  The h3zero
registry cleanup of a fully finished stream (`h3zero_delete_stream`) does
not touch the baton context and is not modelled. -/
def wt_baton_stream_data (ctx : wt_baton_ctx) (bytes : List Nat) (is_fin : Bool)
    (s : stream_ctx) (fresh_id : Nat) : wt_baton_ctx × List wt_action :=
  if s.stream_id = ctx.control_stream_id then
    if !is_fin then (ctx, [])
    else
      let ctx1 := { ctx with baton_state := wt_baton_state.closed }
      if ctx1.is_client then (ctx1, [wt_action.close_connection])
      else
        (ctx1,
         (if !s.is_fin_sent then [wt_action.add_to_stream s.stream_id [] true] else []) ++
         [wt_action.unregister_control_stream s.stream_id])
  else if s.control_stream_id = UINT64_MAX then (ctx, [])
  else if ctx.baton_state ≠ wt_baton_state.ready ∧ ctx.baton_state ≠ wt_baton_state.sent then
    wt_baton_close_session ctx WT_BATON_SESSION_ERR_BRUH (Option.some "Too much data on stream!")
  else if bytes = [] then (ctx, [])
  else
    let ctx0 := wt_baton_adopt_recv ctx s
    let stage : wt_baton_ctx × List wt_action :=
      if ctx0.receiving_stream_id ≠ s.stream_id then
        wt_baton_close_session ctx0 WT_BATON_SESSION_ERR_BRUH
          (Option.some "Data on wrong stream!")
      else wt_baton_process_payload ctx0 bytes
    if is_fin then
      if stage.1.is_receiving then
        let closed := wt_baton_close_session stage.1 WT_BATON_SESSION_ERR_BRUH
          (Option.some "Fin stream before baton")
        (closed.1, stage.2 ++ closed.2)
      else
        let checked := wt_baton_check stage.1 s fresh_id
        (checked.1, stage.2 ++ checked.2)
    else stage

/-- What a `wt_baton_provide_data` call hands back to the transport: the
bytes written into the offered buffer, the number of bytes claimed
(`useful`), and the FIN / still-active flags passed to
`picoquic_provide_stream_data_buffer`. -/
structure provide_result where
  bytes : List Nat
  useful : Nat
  is_fin : Bool
  is_still_active : Bool
deriving DecidableEq, Repr

/-- The stream registration / mismatch block at the head of
`wt_baton_provide_data`: adopt the stream when none is registered for
sending, fault when it is not the registered one.  Returns the context,
the C `ret != 0` flag and the emitted calls. -/
def wt_baton_send_gate (ctx : wt_baton_ctx) (s : stream_ctx) :
    wt_baton_ctx × Bool × List wt_action :=
  if ctx.sending_stream_id = UINT64_MAX then
    ({ ctx with sending_stream_id := s.stream_id }, false, [])
  else if ctx.sending_stream_id ≠ s.stream_id then
    let closed := wt_baton_close_session ctx WT_BATON_SESSION_ERR_BRUH
      (Option.some "Sending on wrong stream!")
    (closed.1, true, closed.2)
  else (ctx, false, [])

/-- `wt_baton_provide_data`: the encode path.  On the first call for a
frame (padding commitment still at the sentinel) the padding length is
committed; each call then writes as much of
`[length-prefix][padding][baton]` as fits.  The C computation
`space - padding_length_length` is `size_t` arithmetic; it is reached with
`space` below the prefix length only through a caller contract violation,
and is modelled with truncated subtraction. -/
def wt_baton_provide_data (ctx : wt_baton_ctx) (space : Nat) (s : stream_ctx) :
    wt_baton_ctx × provide_result × List wt_action :=
  let gate := wt_baton_send_gate ctx s
  let ctx0 := gate.1
  if !gate.2.1 && ctx0.is_sending then
    let committed : wt_baton_ctx × Nat :=
      if ctx0.padding_required = UINT64_MAX then
        if ctx0.baton_state = wt_baton_state.done then
          ({ ctx0 with padding_required := 0 }, 1)
        else if space = 1 then
          ({ ctx0 with padding_required := 0x3F }, 1)
        else
          ({ ctx0 with padding_required := 0x3FFF }, 2)
      else (ctx0, 0)
    let ctx1 := committed.1
    let padding_length_length := committed.2
    let useful0 := padding_length_length + (ctx1.padding_required - ctx1.padding_sent) + 1
    let fits := useful0 ≤ space
    let useful := if fits then useful0 else space
    let pad_length :=
      if fits then ctx1.padding_required - ctx1.padding_sent
      else space - padding_length_length
    let pfx :=
      if 0 < padding_length_length then picoquic_frames_varint_encode ctx1.padding_required
      else []
    let ctx2 :=
      { ctx1 with
          padding_sent := ctx1.padding_sent + pad_length
          is_sending := !fits
          nb_baton_bytes_sent := ctx1.nb_baton_bytes_sent + useful }
    if fits then
      let ctx3 := wt_baton_set_receive_ready { ctx2 with baton_state := wt_baton_state.sent }
      (ctx3,
       { bytes := pfx ++ List.replicate pad_length 0 ++ [ctx2.baton],
         useful := useful, is_fin := true, is_still_active := false }, [])
    else
      (ctx2,
       { bytes := pfx ++ List.replicate pad_length 0,
         useful := useful, is_fin := false, is_still_active := true }, [])
  else
    (ctx0, { bytes := [], useful := 0, is_fin := false, is_still_active := false }, gate.2.2)

/-- Parse of a received baton datagram: padding-length varint, that many
padding bytes skipped, one baton byte, nothing trailing. -/
def wt_datagram_parse (bytes : List Nat) : Option Nat :=
  match picoquic_frames_varint_decode bytes with
  | Option.none => Option.none
  | Option.some pr =>
    match picoquic_frames_fixed_skip pr.2 pr.1 with
    | Option.none => Option.none
    | Option.some r2 =>
      match picoquic_frames_uint8_decode r2 with
      | Option.none => Option.none
      | Option.some br => if br.2 = [] then Option.some br.1 else Option.none

/-- `wt_baton_receive_datagram`: record the baton value and the counters
on a well-formed datagram addressed to this session's control stream;
silently discard anything else.  `stream_matches` is the C test
`stream_ctx == NULL || stream_ctx->stream_id == control_stream_id`. -/
def wt_baton_receive_datagram (ctx : wt_baton_ctx) (bytes : List Nat)
    (stream_matches : Bool) : wt_baton_ctx :=
  if !stream_matches then ctx
  else
    match picoquic_frames_varint_decode bytes with
    | Option.none => ctx
    | Option.some pr =>
      match picoquic_frames_fixed_skip pr.2 pr.1 with
      | Option.none => ctx
      | Option.some r2 =>
        match picoquic_frames_uint8_decode r2 with
        | Option.none => ctx
        | Option.some br =>
          if br.2 = [] then
            { ctx with
                baton_datagram_received := br.1
                nb_datagrams_received := ctx.nb_datagrams_received + 1
                nb_datagram_bytes_received := ctx.nb_datagram_bytes_received + bytes.length }
          else ctx

/-- `wt_baton_ctx_init`: zero the whole context, record the h3 context,
take the configured number of turns (default 127), and register the
control stream (sentinel `UINT64_MAX` when none is supplied).  Returns the
C `ret` value alongside the context.  The prefix registration
(`h3zero_declare_stream_prefix`) lives outside `src/`.
Modelled from the spec: the session-establishment interface of section 6
gives stream registration no failure mode, so the registration is
modelled as succeeding. -/
def wt_baton_ctx_init (h3_present : Bool) (app_nb_turns_required : Option Nat)
    (control_stream : Option Nat) : wt_baton_ctx × Int :=
  if !h3_present then (zeroCtx, -1)
  else
    let c1 :=
      { zeroCtx with
          h3_ctx := true
          nb_turns_required :=
            match app_nb_turns_required with
            | Option.some n => n
            | Option.none => 127 }
    match control_stream with
    | Option.some id => ({ c1 with control_stream_id := id, control_found := true }, 0)
    | Option.none => ({ c1 with control_stream_id := UINT64_MAX }, 0)

/-! Concrete fixtures used by the claim theorems. -/

/-- A client session that has just finished sending (baton `0x29`) and is
re-armed for receiving the echo frame. -/
def ctx_recv : wt_baton_ctx :=
  { zeroCtx with
      baton_state := wt_baton_state.sent
      is_client := true
      control_stream_id := 0
      baton := 0x29
      nb_turns := 1
      nb_turns_required := 127
      is_receiving := true
      receiving_stream_id := UINT64_MAX
      padding_expected := UINT64_MAX
      control_found := true }

/-- The remote unidirectional data stream the frame of `ctx_recv` arrives on. -/
def s_data : stream_ctx :=
  { stream_id := 3, control_stream_id := 0, is_fin_sent := false, is_fin_received := false }

/-- A server-side session context (control stream 4). -/
def ctx_srv : wt_baton_ctx := { zeroCtx with control_stream_id := 4 }

/-- Stream 0 as seen by the server: a remotely (client-) opened
bidirectional stream. -/
def s_rbidi : stream_ctx :=
  { stream_id := 0, control_stream_id := 4, is_fin_sent := false, is_fin_received := false }

/-- Stream 1 as seen by the server: a locally (server-) opened
bidirectional stream. -/
def s_lbidi : stream_ctx :=
  { stream_id := 1, control_stream_id := 4, is_fin_sent := false, is_fin_received := false }

/-- Stream 2 as seen by the server: a remotely opened unidirectional stream. -/
def s_runi : stream_ctx :=
  { stream_id := 2, control_stream_id := 4, is_fin_sent := false, is_fin_received := false }

/-- A server session two stream hops away from its 3-turn requirement. -/
def ctx_turns : wt_baton_ctx :=
  { zeroCtx with
      baton_state := wt_baton_state.sent
      baton := 10
      baton_received := 11
      nb_turns := 1
      nb_turns_required := 3
      control_found := true
      control_stream_id := 4 }

/-- A session in the deterministic-corruption mode (`turns_required = 257`)
about to run its fourth turn with a valid incoming baton. -/
def ctx_corrupt : wt_baton_ctx :=
  { zeroCtx with
      baton_state := wt_baton_state.sent
      baton := 10
      baton_received := 11
      nb_turns := 3
      nb_turns_required := 257
      control_found := true
      control_stream_id := 4 }

/-- A session in `sent` state that has just decoded a zero baton although
`baton + 1` is `6`. -/
def ctx_zero_in : wt_baton_ctx :=
  { zeroCtx with
      baton_state := wt_baton_state.sent
      baton := 5
      baton_received := 0
      nb_turns := 2
      nb_turns_required := 127
      control_found := true
      control_stream_id := 4 }

/-- First single-byte delivery of the frame `[0x02, 0x00, 0x00, 0x2A]`. -/
def chunk1 : wt_baton_ctx × List wt_action :=
  wt_baton_stream_data ctx_recv [0x02] false s_data 99

/-- Second single-byte delivery. -/
def chunk2 : wt_baton_ctx × List wt_action :=
  wt_baton_stream_data chunk1.1 [0x00] false s_data 99

/-- Third single-byte delivery. -/
def chunk3 : wt_baton_ctx × List wt_action :=
  wt_baton_stream_data chunk2.1 [0x00] false s_data 99

/-- Fourth single-byte delivery, carrying the end-of-stream marker. -/
def chunk4 : wt_baton_ctx × List wt_action :=
  wt_baton_stream_data chunk3.1 [0x2A] true s_data 99

/-- The same frame delivered as one four-byte range with end-of-stream. -/
def once6 : wt_baton_ctx × List wt_action :=
  wt_baton_stream_data ctx_recv [0x02, 0x00, 0x00, 0x2A] true s_data 99

set_option maxHeartbeats 16000000 in
/-- C6: decoding the frame `[0x02, 0x00, 0x00, 0x2A]` delivered to the
stream-data entry point as four single-byte ranges (the last carrying the
end-of-stream marker) produces the same session context and the same
emitted transport calls as delivering all four bytes in one range, and
both decode `baton_in = 0x2A`: the resumable decoder is invariant under
this chunking, and the same check step runs in both cases. -/
theorem wt_baton_chunked_decode :
    chunk4.1 = once6.1 ∧ chunk1.2 ++ chunk2.2 ++ chunk3.2 ++ chunk4.2 = once6.2 ∧
      chunk4.1.baton_received = 0x2A :=
  ⟨rfl, rfl, rfl⟩

/-- C1 counterexample: on the server, a baton arriving on the
remotely-opened bidirectional stream 0 makes the dispatcher reply on that
same stream (the only emitted call is marking stream 0 active; no new
stream is opened and no header is written), while the claim requires a new
unidirectional stream there; and a baton arriving on the locally-opened
bidirectional stream 1 makes the dispatcher open a new unidirectional
stream and write its header, while the claim requires replying on
stream 1 itself. -/
theorem wt_baton_relay_routing_cx :
    (wt_baton_relay ctx_srv (Option.some s_rbidi) 99).2 =
        [wt_action.mark_active_stream 0] ∧
      (wt_baton_relay ctx_srv (Option.some s_rbidi) 99).1.sending_stream_id = 0 ∧
      (wt_baton_relay ctx_srv (Option.some s_lbidi) 99).2 =
        [wt_action.add_to_stream 99 [0x40, 0x54, 4] false, wt_action.mark_active_stream 99] ∧
      (wt_baton_relay ctx_srv (Option.some s_lbidi) 99).1.sending_stream_id = 99 := by
  decide

/-- C2 counterexample: a server session with `turns_required = 3` that
receives a valid baton on its second stream hop ends the step with
`turn_count = 3 ≥ 3` — the turn count first satisfies the termination
bound via the dispatch increment — yet the session is still in `sent`
state with a nonzero outbound baton, not `done`. -/
theorem wt_baton_turns_done_cx :
    ((wt_baton_check ctx_turns s_rbidi 9).1.nb_turns_required ≤
        (wt_baton_check ctx_turns s_rbidi 9).1.nb_turns) ∧
      (wt_baton_check ctx_turns s_rbidi 9).1.baton_state ≠ wt_baton_state.done ∧
      (wt_baton_check ctx_turns s_rbidi 9).1.baton ≠ 0 := by
  decide

/-- C3 counterexample: with the corruption hook enabled and a valid
incoming baton `11` on the turn where the credited count reaches 4, the
next outbound baton is `41 = (11 + 30) % 256` (31 is added to the
previously sent baton `10`), not `(11 + 31) % 256 = 42` as the claim
states. -/
theorem wt_baton_corruption_cx :
    (wt_baton_check ctx_corrupt s_rbidi 9).1.baton ≠
      (ctx_corrupt.baton_received + 31) % 256 := by
  decide

/-- C5 counterexample: in `sent` state with previous outbound baton `5`, a
decoded baton of `0` differs from `baton_out + 1 = 6`, yet the check does
not mark the session `protocol-error` with a malformed-message close: it
takes the termination path and closes with the success code `0`. -/
theorem wt_baton_wrong_baton_cx :
    (wt_baton_check ctx_zero_in s_runi 9).2 =
        [wt_action.send_close_session_message 0 (Option.some "Have a nice day")] ∧
      (wt_baton_check ctx_zero_in s_runi 9).1.baton_state ≠ wt_baton_state.error := by
  decide

/-- C8 counterexample: an end-of-stream marker delivered with an empty
byte range while the decoder is still waiting for the baton byte leaves
the session completely unchanged and emits no close call — the
`is_fin` handling of the stream-data entry point sits inside the
`length > 0` guard — while the claim requires a malformed-message close. -/
theorem wt_baton_fin_before_baton_cx :
    wt_baton_stream_data ctx_recv [] true s_data 99 = (ctx_recv, []) ∧
      ctx_recv.is_receiving = true ∧
      ctx_recv.baton_state ≠ wt_baton_state.closed := by
  decide

/-- C1 (amended): the relay dispatcher routes the next outbound frame as
follows: with no inbound stream, or when the inbound stream was a
locally-opened bidirectional stream, it opens a new unidirectional stream,
queues a header of the unidirectional type tag plus the control-stream
identifier, and arms the new stream as the active send stream; when the
inbound stream was unidirectional it opens a new locally-initiated
bidirectional stream with the analogous header and arms it; when the
inbound stream was a remotely-opened bidirectional stream no new stream is
opened and the reply goes back on that same stream. -/
theorem wt_baton_relay_routing (ctx : wt_baton_ctx) (fid : Nat) :
    (wt_baton_relay ctx Option.none fid =
      ({ ctx with
          nb_turns := ctx.nb_turns + 1
          is_sending := true
          sending_stream_id := fid
          padding_required := UINT64_MAX
          padding_sent := 0 },
       [wt_action.add_to_stream fid
          (picoquic_frames_varint_encode h3zero_stream_type_webtransport ++
           picoquic_frames_varint_encode ctx.control_stream_id) false,
        wt_action.mark_active_stream fid])) ∧
    (∀ st : stream_ctx, IS_BIDIR_STREAM_ID st.stream_id = true →
      IS_LOCAL_STREAM_ID st.stream_id ctx.is_client = true →
      wt_baton_relay ctx (Option.some st) fid =
        ({ ctx with
            nb_turns := ctx.nb_turns + 1
            is_sending := true
            sending_stream_id := fid
            padding_required := UINT64_MAX
            padding_sent := 0 },
         [wt_action.add_to_stream fid
            (picoquic_frames_varint_encode h3zero_stream_type_webtransport ++
             picoquic_frames_varint_encode ctx.control_stream_id) false,
          wt_action.mark_active_stream fid])) ∧
    (∀ st : stream_ctx, IS_BIDIR_STREAM_ID st.stream_id = false →
      wt_baton_relay ctx (Option.some st) fid =
        ({ ctx with
            nb_turns := ctx.nb_turns + 1
            is_sending := true
            sending_stream_id := fid
            padding_required := UINT64_MAX
            padding_sent := 0 },
         [wt_action.add_to_stream fid
            (picoquic_frames_varint_encode h3zero_frame_webtransport_stream ++
             picoquic_frames_varint_encode ctx.control_stream_id) false,
          wt_action.mark_active_stream fid])) ∧
    (∀ st : stream_ctx, IS_BIDIR_STREAM_ID st.stream_id = true →
      IS_LOCAL_STREAM_ID st.stream_id ctx.is_client = false →
      wt_baton_relay ctx (Option.some st) fid =
        ({ ctx with
            nb_turns := ctx.nb_turns + 1
            is_sending := true
            sending_stream_id := st.stream_id
            padding_required := UINT64_MAX
            padding_sent := 0 },
         [wt_action.mark_active_stream st.stream_id])) := by
  refine ⟨rfl, ?_, ?_, ?_⟩
  · intro st hb hl
    simp [wt_baton_relay, hb, hl]
  · intro st hb
    simp [wt_baton_relay, hb]
  · intro st hb hl
    simp [wt_baton_relay, hb, hl]

/-- C1 witness: the amended routing theorem applied to concrete inputs —
the session-start dispatch and a locally-opened bidirectional inbound
stream both arm the fresh unidirectional stream 99, an inbound
unidirectional stream arms a fresh bidirectional stream, and a
remotely-opened bidirectional inbound stream stays armed itself. -/
theorem wt_baton_relay_routing_witness :
    (wt_baton_relay ctx_srv Option.none 99).1.sending_stream_id = 99 ∧
      (wt_baton_relay ctx_srv (Option.some s_lbidi) 99).1.sending_stream_id = 99 ∧
      (wt_baton_relay ctx_srv (Option.some s_runi) 99).1.sending_stream_id = 99 ∧
      (wt_baton_relay ctx_srv (Option.some s_rbidi) 99).1.sending_stream_id = 0 := by
  have h := wt_baton_relay_routing ctx_srv 99
  refine ⟨?_, ?_, ?_, ?_⟩
  · rw [h.1]
  · rw [h.2.1 s_lbidi (by decide) (by decide)]
  · rw [h.2.2.1 s_runi (by decide)]
  · rw [h.2.2.2 s_rbidi (by decide) (by decide)]
    rfl

/-- The relay dispatcher never changes the session state. -/
theorem wt_baton_relay_fst_baton_state (c : wt_baton_ctx) (s : Option stream_ctx) (fid : Nat) :
    (wt_baton_relay c s fid).1.baton_state = c.baton_state := rfl

/-- The relay dispatcher never changes the outbound baton value. -/
theorem wt_baton_relay_fst_baton (c : wt_baton_ctx) (s : Option stream_ctx) (fid : Nat) :
    (wt_baton_relay c s fid).1.baton = c.baton := rfl

/-- The relay dispatcher credits exactly one further turn. -/
theorem wt_baton_relay_fst_nb_turns (c : wt_baton_ctx) (s : Option stream_ctx) (fid : Nat) :
    (wt_baton_relay c s fid).1.nb_turns = c.nb_turns + 1 := rfl

/-- C2 (amended): on a turn check with a valid nonzero baton and the
corruption hook disabled, the session reaches `done` exactly when the
check's own increment (crediting the peer's turn) makes the turn count
reach `turns_required`, and in that case the outbound baton is the zero
sentinel.  (The dispatch increment that follows never sets `done`, so the
turn count can reach `turns_required` one stream hop before the state
does — see the counterexample.) -/
theorem wt_baton_turns_done (ctx : wt_baton_ctx) (s : stream_ctx) (fid : Nat)
    (hrecv : ctx.baton_received ≠ 0)
    (hstate : ctx.baton_state = wt_baton_state.ready ∨ ctx.baton_state = wt_baton_state.sent)
    (hvalid : ctx.baton_state = wt_baton_state.sent → ctx.baton_received = ctx.baton + 1)
    (hreq : ctx.nb_turns_required ≠ 257) :
    ((wt_baton_check ctx s fid).1.baton_state = wt_baton_state.done ↔
      ctx.nb_turns_required ≤ ctx.nb_turns + 1) ∧
    ((wt_baton_check ctx s fid).1.baton_state = wt_baton_state.done →
      (wt_baton_check ctx s fid).1.baton = 0) := by
  have hw : (ctx.baton_state = wt_baton_state.sent &&
      ctx.baton_received != ctx.baton + 1) = false := by
    rcases hstate with h | h
    · rw [h]; simp
    · rw [hvalid h]; simp
  simp only [wt_baton_check, hw, hrecv, Bool.false_eq_true, if_false,
    wt_baton_relay_fst_baton_state, wt_baton_relay_fst_baton]
  split_ifs <;> simp_all

/-- C2 witness: a server session one valid turn away from its 2-turn
requirement reaches `done` with outbound baton `0`, as the amended theorem
states. -/
theorem wt_baton_turns_done_witness :
    ((wt_baton_check { ctx_turns with nb_turns_required := 2 } s_rbidi 9).1.baton_state =
        wt_baton_state.done ↔
      (2 : Nat) ≤ ctx_turns.nb_turns + 1) ∧
    ((wt_baton_check { ctx_turns with nb_turns_required := 2 } s_rbidi 9).1.baton_state =
        wt_baton_state.done →
      (wt_baton_check { ctx_turns with nb_turns_required := 2 } s_rbidi 9).1.baton = 0) :=
  wt_baton_turns_done { ctx_turns with nb_turns_required := 2 } s_rbidi 9
    (by decide) (Or.inr rfl) (fun _ => rfl) (by decide)

/-- C3 (amended): with the corruption hook enabled (`turns_required = 257`),
a valid nonzero baton checked with the credited turn count at least 4 and
below `turns_required` makes the next outbound baton
`(baton_in + 30) mod 256` — the code adds 31 to the previously sent
baton, which a valid turn fixes at `baton_in - 1` — with 1 substituted
when that result is exactly 0. -/
theorem wt_baton_corruption (ctx : wt_baton_ctx) (s : stream_ctx) (fid : Nat)
    (hstate : ctx.baton_state = wt_baton_state.sent)
    (hbaton : ctx.baton ≤ 254)
    (hvalid : ctx.baton_received = ctx.baton + 1)
    (hreq : ctx.nb_turns_required = 257)
    (hlow : 4 ≤ ctx.nb_turns + 1)
    (hhigh : ctx.nb_turns + 1 < 257) :
    (wt_baton_check ctx s fid).1.baton =
      (if (ctx.baton_received + 30) % 256 = 0 then 1
       else (ctx.baton_received + 30) % 256) := by
  have hrecv : ctx.baton_received ≠ 0 := by omega
  have hw : (ctx.baton_state = wt_baton_state.sent &&
      ctx.baton_received != ctx.baton + 1) = false := by
    rw [hvalid]; simp
  have hb : ctx.baton_received + 30 = ctx.baton + 31 := by omega
  simp only [wt_baton_check, hw, hrecv, Bool.false_eq_true, if_false,
    wt_baton_relay_fst_baton, hb]
  split_ifs <;> simp_all <;> omega

/-- C3 witness: the amended corruption rule applied at concrete inputs —
a valid baton `11` on the fourth credited turn yields outbound baton
`41 = (11 + 30) % 256`, and a valid baton `226` yields `1` because
`(226 + 30) % 256 = 0` (the zero-substitution branch). -/
theorem wt_baton_corruption_witness :
    (wt_baton_check ctx_corrupt s_rbidi 9).1.baton =
        (if (ctx_corrupt.baton_received + 30) % 256 = 0 then 1
         else (ctx_corrupt.baton_received + 30) % 256) ∧
      (wt_baton_check { ctx_corrupt with baton := 225, baton_received := 226 } s_rbidi 9).1.baton =
        (if (226 + 30) % 256 = 0 then 1 else (226 + 30) % 256) :=
  ⟨wt_baton_corruption ctx_corrupt s_rbidi 9 rfl (by decide) rfl rfl (by decide) (by decide),
   wt_baton_corruption { ctx_corrupt with baton := 225, baton_received := 226 } s_rbidi 9
     rfl (by decide) rfl rfl (by decide) (by decide)⟩

/-- C4: whenever a fully decoded zero baton is checked — from any state
and with any turn count — with the control stream still open, the session
state goes through `done` to `closed` and the session close message
carries the success code `0`; when the zero baton arrived on a
remotely-opened bidirectional stream, that stream's FIN is queued before
the close message is sent. -/
theorem wt_baton_zero_baton_close (ctx : wt_baton_ctx) (s : stream_ctx) (fid : Nat)
    (hrecv : ctx.baton_received = 0)
    (hfound : ctx.control_found = true)
    (hfin : ctx.control_fin_sent = false) :
    (wt_baton_check ctx s fid).1.baton_state = wt_baton_state.closed ∧
    (wt_baton_check ctx s fid).2 =
      (if IS_BIDIR_STREAM_ID s.stream_id && !IS_LOCAL_STREAM_ID s.stream_id ctx.is_client then
        [wt_action.add_to_stream s.stream_id [] true]
       else []) ++
      [wt_action.send_close_session_message 0 (Option.some "Have a nice day")] := by
  simp [wt_baton_check, wt_baton_close_session, hrecv, hfound, hfin]

/-- C4 witness: a session in `sent` state at turn 2 that decodes a zero
baton which arrived on the remotely-opened bidirectional stream 0 queues
the FIN of stream 0 and then the success-code close message, ending
closed. -/
theorem wt_baton_zero_baton_close_witness :
    (wt_baton_check ctx_zero_in s_rbidi 9).1.baton_state = wt_baton_state.closed ∧
    (wt_baton_check ctx_zero_in s_rbidi 9).2 =
      (if IS_BIDIR_STREAM_ID s_rbidi.stream_id &&
          !IS_LOCAL_STREAM_ID s_rbidi.stream_id ctx_zero_in.is_client then
        [wt_action.add_to_stream s_rbidi.stream_id [] true]
       else []) ++
      [wt_action.send_close_session_message 0 (Option.some "Have a nice day")] :=
  wt_baton_zero_baton_close ctx_zero_in s_rbidi 9 rfl rfl rfl

/-- The relay dispatcher never emits a close-session message. -/
theorem wt_baton_relay_no_close (c : wt_baton_ctx) (s : Option stream_ctx) (fid : Nat) :
    ((wt_baton_relay c s fid).2.all fun a => !a.is_close_message) = true := by
  cases s <;> simp only [wt_baton_relay] <;> try split_ifs
  all_goals simp [wt_action.is_close_message]

/-- C5 (amended): for a turn that is not the very first for this role
(state `sent`) and whose decoded baton is nonzero, a baton that differs
from the previously sent baton plus one under wrapping byte addition —
for every previous baton value including 255, for which every nonzero
incoming baton is wrong — marks the session `protocol-error` and closes
it through the malformed-message path, while a baton equal to the wrapped
successor triggers no close message at all.  (A decoded zero baton is
intercepted earlier by the success-close path, see the counterexample.) -/
theorem wt_baton_wrong_baton (ctx : wt_baton_ctx) (s : stream_ctx) (fid : Nat)
    (hstate : ctx.baton_state = wt_baton_state.sent)
    (hb : ctx.baton < 256)
    (hr : ctx.baton_received < 256)
    (hrecv : ctx.baton_received ≠ 0) :
    (ctx.baton_received ≠ (ctx.baton + 1) % 256 →
      wt_baton_check ctx s fid =
        wt_baton_close_session { ctx with baton_state := wt_baton_state.error }
          WT_BATON_SESSION_ERR_BRUH Option.none) ∧
    (ctx.baton_received = (ctx.baton + 1) % 256 →
      ((wt_baton_check ctx s fid).2.all fun a => !a.is_close_message) = true) := by
  constructor
  · intro hne
    have hne1 : ctx.baton_received ≠ ctx.baton + 1 := by omega
    have hbne : (ctx.baton_received != ctx.baton + 1) = true := by
      simp [hne1]
    simp [wt_baton_check, hbne, hrecv, hstate]
  · intro heq
    have hv : ctx.baton_received = ctx.baton + 1 := by omega
    have hw : (ctx.baton_state = wt_baton_state.sent &&
        ctx.baton_received != ctx.baton + 1) = false := by
      rw [hv]; simp
    have hcond : ¬(ctx.baton_state = wt_baton_state.ready ∧ ctx.first_baton = 0) := by
      simp [hstate]
    simp only [wt_baton_check, hw, hcond, hrecv, Bool.false_eq_true, if_false]
    split_ifs <;> rw [List.all_append] <;>
      exact (Bool.and_eq_true _ _).mpr ⟨by rfl, wt_baton_relay_no_close _ _ _⟩

/-- C5 witness: the amended rule at concrete inputs — with previous baton
255 the wrapped successor is 0, so the nonzero incoming baton 7 is wrong
and the check equals the protocol-error malformed-message close; with
previous baton 10 the valid incoming baton 11 produces no close message. -/
theorem wt_baton_wrong_baton_witness :
    (wt_baton_check { ctx_turns with baton := 255, baton_received := 7 } s_rbidi 9 =
      wt_baton_close_session
        { { ctx_turns with baton := 255, baton_received := 7 } with
            baton_state := wt_baton_state.error }
        WT_BATON_SESSION_ERR_BRUH Option.none) ∧
    ((wt_baton_check ctx_turns s_rbidi 9).2.all fun a => !a.is_close_message) = true :=
  ⟨(wt_baton_wrong_baton { ctx_turns with baton := 255, baton_received := 7 } s_rbidi 9
      rfl (by decide) (by decide) (by decide)).1 (by decide),
   (wt_baton_wrong_baton ctx_turns s_rbidi 9
      rfl (by decide) (by decide) (by decide)).2 (by decide)⟩

/-- C7: on the first provide-data call for a frame (padding commitment
still at its sentinel), with the send gate passing, the committed padding
length is 0 — encoded in a 1-byte prefix — when the session is `done`,
0x3F when exactly 1 byte of space is offered, and 0x3FFF — encoded in a
2-byte prefix — otherwise; and on every call where the commitment has
already been made, whatever space is offered, the committed padding
length is never changed. -/
theorem wt_baton_padding_commit (ctx : wt_baton_ctx) (space : Nat) (s : stream_ctx) :
    ((ctx.padding_required = UINT64_MAX ∧ ctx.is_sending = true ∧
        (ctx.sending_stream_id = UINT64_MAX ∨ ctx.sending_stream_id = s.stream_id)) →
      ((wt_baton_provide_data ctx space s).1.padding_required =
          (if ctx.baton_state = wt_baton_state.done then 0
           else if space = 1 then 0x3F else 0x3FFF) ∧
        (picoquic_frames_varint_encode
            (wt_baton_provide_data ctx space s).1.padding_required).length =
          (if ctx.baton_state = wt_baton_state.done then 1
           else if space = 1 then 1 else 2))) ∧
    (ctx.padding_required ≠ UINT64_MAX →
      (wt_baton_provide_data ctx space s).1.padding_required = ctx.padding_required) := by
  constructor
  · rintro ⟨h1, h2, h3⟩
    obtain ⟨c0, hg, hcs, hcp, hcb⟩ :
        ∃ c0, wt_baton_send_gate ctx s = (c0, false, []) ∧
          c0.is_sending = ctx.is_sending ∧ c0.padding_required = ctx.padding_required ∧
          c0.baton_state = ctx.baton_state := by
      rcases h3 with h3 | h3
      · refine ⟨{ ctx with sending_stream_id := s.stream_id }, ?_, rfl, rfl, rfl⟩
        simp [wt_baton_send_gate, h3]
      · by_cases hu : ctx.sending_stream_id = UINT64_MAX
        · refine ⟨{ ctx with sending_stream_id := s.stream_id }, ?_, rfl, rfl, rfl⟩
          simp [wt_baton_send_gate, hu]
        · refine ⟨ctx, ?_, rfl, rfl, rfl⟩
          have hne2 : ¬(ctx.sending_stream_id ≠ s.stream_id) := by simp [h3]
          simp [wt_baton_send_gate, hu, hne2]
    simp only [wt_baton_provide_data]
    rw [hg]
    dsimp only
    simp only [hcs, hcp, hcb, h1, h2]
    split_ifs <;> first | exact ⟨rfl, rfl⟩ | simp_all
  · intro hne
    by_cases hu : ctx.sending_stream_id = UINT64_MAX
    · have hg : wt_baton_send_gate ctx s =
          ({ ctx with sending_stream_id := s.stream_id }, false, []) := by
        simp [wt_baton_send_gate, hu]
      simp only [wt_baton_provide_data]
      rw [hg]
      dsimp only
      split_ifs <;> rfl
    · by_cases hsm : ctx.sending_stream_id = s.stream_id
      · have hg : wt_baton_send_gate ctx s = (ctx, false, []) := by
          have hne2 : ¬(ctx.sending_stream_id ≠ s.stream_id) := by simp [hsm]
          simp [wt_baton_send_gate, hu, hne2]
        simp only [wt_baton_provide_data]
        rw [hg]
        dsimp only
        split_ifs <;> rfl
      · have hg : wt_baton_send_gate ctx s =
            ((wt_baton_close_session ctx WT_BATON_SESSION_ERR_BRUH
                (Option.some "Sending on wrong stream!")).1, true,
             (wt_baton_close_session ctx WT_BATON_SESSION_ERR_BRUH
                (Option.some "Sending on wrong stream!")).2) := by
          simp [wt_baton_send_gate, hu, hsm]
        simp only [wt_baton_provide_data]
        rw [hg]
        dsimp only
        simp only [wt_baton_close_session]
        split_ifs <;> rfl

/-- C7 witness: the commitment rule at concrete inputs — a first call in
`done` state commits padding 0 with a 1-byte prefix, and a second call
with different space keeps a previous commitment of 0x3F unchanged. -/
theorem wt_baton_padding_commit_witness :
    ((wt_baton_provide_data
          { ctx_recv with
              baton_state := wt_baton_state.done
              is_sending := true
              sending_stream_id := 8
              padding_required := UINT64_MAX } 100
          { stream_id := 8, control_stream_id := 0, is_fin_sent := false,
            is_fin_received := false }).1.padding_required = 0 ∧
      (picoquic_frames_varint_encode
          (wt_baton_provide_data
              { ctx_recv with
                  baton_state := wt_baton_state.done
                  is_sending := true
                  sending_stream_id := 8
                  padding_required := UINT64_MAX } 100
              { stream_id := 8, control_stream_id := 0, is_fin_sent := false,
                is_fin_received := false }).1.padding_required).length = 1) ∧
    (wt_baton_provide_data
        { ctx_recv with is_sending := true, sending_stream_id := 8, padding_required := 0x3F }
        100
        { stream_id := 8, control_stream_id := 0, is_fin_sent := false,
          is_fin_received := false }).1.padding_required = 0x3F := by
  constructor
  · have h := (wt_baton_padding_commit
      { ctx_recv with
          baton_state := wt_baton_state.done
          is_sending := true
          sending_stream_id := 8
          padding_required := UINT64_MAX } 100
      { stream_id := 8, control_stream_id := 0, is_fin_sent := false,
        is_fin_received := false }).1 ⟨rfl, rfl, Or.inr rfl⟩
    simpa using h
  · exact (wt_baton_padding_commit
      { ctx_recv with is_sending := true, sending_stream_id := 8, padding_required := 0x3F }
      100
      { stream_id := 8, control_stream_id := 0, is_fin_sent := false,
        is_fin_received := false }).2 (by decide)

/-- C8 (amended): a delivery to the stream-data entry point with a
NON-EMPTY byte range and the end-of-stream marker, on a linked data
stream in a receivable state matching the receiving stream, whose payload
processing raises no fault and leaves the decoder still waiting for the
baton byte, closes the session with the malformed-message code and reason
"Fin stream before baton".  (A delivery whose byte range is empty is a
no-op of the entry point — the FIN handling sits inside the `length > 0`
guard — see the counterexample.) -/
theorem wt_baton_fin_before_baton (ctx : wt_baton_ctx) (bytes : List Nat)
    (s : stream_ctx) (fid : Nat)
    (hnc : s.stream_id ≠ ctx.control_stream_id)
    (hlink : s.control_stream_id ≠ UINT64_MAX)
    (hstate : ctx.baton_state = wt_baton_state.ready ∨ ctx.baton_state = wt_baton_state.sent)
    (hbytes : bytes ≠ [])
    (hrs : ctx.receiving_stream_id = UINT64_MAX ∨ ctx.receiving_stream_id = s.stream_id)
    (hacts : (wt_baton_process_payload (wt_baton_adopt_recv ctx s) bytes).2 = [])
    (hrecv2 : (wt_baton_process_payload (wt_baton_adopt_recv ctx s) bytes).1.is_receiving = true)
    (hcf : (wt_baton_process_payload (wt_baton_adopt_recv ctx s) bytes).1.control_found = true)
    (hcfs : (wt_baton_process_payload (wt_baton_adopt_recv ctx s) bytes).1.control_fin_sent
      = false) :
    (wt_baton_stream_data ctx bytes true s fid).1.baton_state = wt_baton_state.closed ∧
    (wt_baton_stream_data ctx bytes true s fid).2 =
      [wt_action.send_close_session_message WT_BATON_SESSION_ERR_BRUH
        (Option.some "Fin stream before baton")] := by
  have hgate : ¬(ctx.baton_state ≠ wt_baton_state.ready ∧
      ctx.baton_state ≠ wt_baton_state.sent) := by
    rcases hstate with h | h <;> simp [h]
  have hmatch : ¬((wt_baton_adopt_recv ctx s).receiving_stream_id ≠ s.stream_id) := by
    unfold wt_baton_adopt_recv
    rcases hrs with h | h
    · simp [h]
    · by_cases hu : ctx.receiving_stream_id = UINT64_MAX
      · simp [hu]
      · rw [if_neg hu]
        simp [h]
  simp [wt_baton_stream_data, wt_baton_close_session, hnc, hlink, hgate, hbytes,
    hmatch, hrecv2, hcf, hcfs, hacts]

/-- C8 witness: delivering the single prefix byte `0x02` with the
end-of-stream marker to a freshly receive-armed session raises the
malformed-message close with reason "Fin stream before baton". -/
theorem wt_baton_fin_before_baton_witness :
    (wt_baton_stream_data ctx_recv [0x02] true s_data 99).1.baton_state =
        wt_baton_state.closed ∧
    (wt_baton_stream_data ctx_recv [0x02] true s_data 99).2 =
      [wt_action.send_close_session_message WT_BATON_SESSION_ERR_BRUH
        (Option.some "Fin stream before baton")] :=
  wt_baton_fin_before_baton ctx_recv [0x02] s_data 99 (by decide) (by decide)
    (Or.inr rfl) (by decide) (Or.inl rfl) (by decide) (by decide) (by decide) (by decide)

/-- C9: a datagram delivery never alters the protocol state: whatever the
bytes and whether or not the datagram is addressed to this session's
control stream, `baton_state`, `nb_turns`, `baton`, `baton_received` and
all the stream-decoding scratch fields are unchanged; a well-formed
datagram changes exactly `baton_datagram_received` and the two receive
counters, and a malformed or misaddressed one changes nothing at all. -/
theorem wt_baton_datagram_effect (ctx : wt_baton_ctx) (bytes : List Nat)
    (stream_matches : Bool) :
    wt_baton_receive_datagram ctx bytes stream_matches =
      (if stream_matches then
        match wt_datagram_parse bytes with
        | Option.some b =>
          { ctx with
              baton_datagram_received := b
              nb_datagrams_received := ctx.nb_datagrams_received + 1
              nb_datagram_bytes_received := ctx.nb_datagram_bytes_received + bytes.length }
        | Option.none => ctx
       else ctx) ∧
    (wt_baton_receive_datagram ctx bytes stream_matches).baton_state = ctx.baton_state ∧
    (wt_baton_receive_datagram ctx bytes stream_matches).nb_turns = ctx.nb_turns ∧
    (wt_baton_receive_datagram ctx bytes stream_matches).baton = ctx.baton ∧
    (wt_baton_receive_datagram ctx bytes stream_matches).baton_received =
      ctx.baton_received ∧
    (wt_baton_receive_datagram ctx bytes stream_matches).is_receiving = ctx.is_receiving ∧
    (wt_baton_receive_datagram ctx bytes stream_matches).padding_expected =
      ctx.padding_expected ∧
    (wt_baton_receive_datagram ctx bytes stream_matches).padding_received =
      ctx.padding_received ∧
    (wt_baton_receive_datagram ctx bytes stream_matches).receive_buffer =
      ctx.receive_buffer ∧
    (wt_baton_receive_datagram ctx bytes stream_matches).receiving_stream_id =
      ctx.receiving_stream_id := by
  have heq : wt_baton_receive_datagram ctx bytes stream_matches =
      (if stream_matches then
        match wt_datagram_parse bytes with
        | Option.some b =>
          { ctx with
              baton_datagram_received := b
              nb_datagrams_received := ctx.nb_datagrams_received + 1
              nb_datagram_bytes_received := ctx.nb_datagram_bytes_received + bytes.length }
        | Option.none => ctx
       else ctx) := by
    cases stream_matches
    · rfl
    · simp only [wt_baton_receive_datagram, wt_datagram_parse]
      rcases hv : picoquic_frames_varint_decode bytes with _ | pr
      · simp [hv]
      · rcases hs : picoquic_frames_fixed_skip pr.2 pr.1 with _ | r2
        · simp [hv, hs]
        · rcases hb : picoquic_frames_uint8_decode r2 with _ | br
          · simp [hv, hs, hb]
          · by_cases he : br.2 = []
            · simp [hv, hs, hb, he]
            · simp [hv, hs, hb, he]
  refine ⟨heq, ?_, ?_, ?_, ?_, ?_, ?_, ?_, ?_, ?_⟩ <;>
    (rw [heq]; split <;> first | rfl | (split <;> rfl))

/-- C10: `wt_baton_ctx_init` starts from the all-zeroes context; with an
h3 context present it sets `nb_turns_required` to the application
context's configured value, or to the default 127 when no application
context is supplied, and sets `control_stream_id` to the id of the
supplied control stream or to the sentinel `UINT64_MAX` when none is
supplied; it returns nonzero (failure) exactly when the h3 context
argument is NULL, in which case the context is left entirely zeroed. -/
theorem wt_baton_ctx_init_spec (h3_present : Bool) (app : Option Nat) (cs : Option Nat) :
    ((wt_baton_ctx_init h3_present app cs).2 ≠ 0 ↔ h3_present = false) ∧
    (h3_present = true →
      (wt_baton_ctx_init h3_present app cs).1.nb_turns_required =
        (match app with | Option.some n => n | Option.none => 127)) ∧
    (h3_present = true → cs = Option.none →
      (wt_baton_ctx_init h3_present app cs).1.control_stream_id = UINT64_MAX) ∧
    (h3_present = true → ∀ id, cs = Option.some id →
      (wt_baton_ctx_init h3_present app cs).1.control_stream_id = id) ∧
    (h3_present = false → (wt_baton_ctx_init h3_present app cs).1 = zeroCtx) ∧
    (wt_baton_ctx_init h3_present app cs).1.baton_state = wt_baton_state.start ∧
    (wt_baton_ctx_init h3_present app cs).1.baton = 0 ∧
    (wt_baton_ctx_init h3_present app cs).1.nb_turns = 0 ∧
    (wt_baton_ctx_init h3_present app cs).1.first_baton = 0 ∧
    (wt_baton_ctx_init h3_present app cs).1.is_receiving = false ∧
    (wt_baton_ctx_init h3_present app cs).1.is_sending = false := by
  cases h3_present <;> rcases app with _ | n <;> rcases cs with _ | id <;>
    simp [wt_baton_ctx_init] <;> exact ⟨rfl, rfl, rfl, rfl, rfl, rfl⟩

/-- C10 witness: the initialization contract applied at concrete inputs —
with an h3 context, a configured turn requirement of 5 and no control
stream, initialization succeeds, requires 5 turns and poisons the control
stream id; without an h3 context it fails. -/
theorem wt_baton_ctx_init_spec_witness :
    (wt_baton_ctx_init true (Option.some 5) Option.none).1.nb_turns_required = 5 ∧
    (wt_baton_ctx_init true (Option.some 5) Option.none).1.control_stream_id = UINT64_MAX ∧
    ((wt_baton_ctx_init false Option.none Option.none).2 ≠ 0 ↔ (false : Bool) = false) ∧
    (wt_baton_ctx_init false Option.none Option.none).1 = zeroCtx :=
  ⟨(wt_baton_ctx_init_spec true (Option.some 5) Option.none).2.1 rfl,
   (wt_baton_ctx_init_spec true (Option.some 5) Option.none).2.2.1 rfl rfl,
   (wt_baton_ctx_init_spec false Option.none Option.none).1,
   (wt_baton_ctx_init_spec false Option.none Option.none).2.2.2.2.1 rfl⟩

end WtBaton
